import Mathlib

/-!
Verification development for the MNJ Money backend (src/main.py).

The file shallowly embeds the request-validation and persistence layer of the
FastAPI application: each route handler becomes a pure Lean function over an
explicit database state.  Storage is modelled as in-memory tables (lists of
rows plus a SERIAL counter); timestamps are abstracted to natural numbers
(the ISO rendering of a timestamp is injective, so properties about which
timestamp is returned are stated on the abstraction directly).  Statements
executed on an acquired connection can fail; this is modelled by an explicit
`Option StorageExc` parameter per fallible statement, standing for a psycopg
exception raised by `execute`/`fetch`/`commit` after the connection was
acquired.  Each handler result records the number of connections the handler
still holds open when it terminates (`openConns`), mirroring exactly where
`main.py` calls `conn.close()`.
-/

namespace MnjMoney

/-! ### Python / SQL string primitives -/

/-- `str.strip()` on the character list: drop whitespace from both ends. -/
def stripL (cs : List Char) : List Char :=
  ((cs.dropWhile Char.isWhitespace).reverse.dropWhile Char.isWhitespace).reverse

/-- Python `str.strip()`. -/
def pyStrip (s : String) : String := ⟨stripL s.toList⟩

/-- Python truthiness of a string: non-empty strings are truthy. -/
def pyTruthy (s : String) : Bool := !s.toList.isEmpty

/-- Python truthiness of an `Optional[bool]` query parameter:
`None` and `False` are falsy. -/
def optBoolTruthy : Option Bool → Bool
  | none => false
  | some b => b

/-- Lower-casing used by SQL `ILIKE` (modelled with Lean's `Char.toLower`,
which lower-cases the ASCII range actually occurring in the data model). -/
def lowerL (cs : List Char) : List Char := cs.map Char.toLower

/-! ### SQL LIKE / ILIKE semantics

`likeMatchF` is PostgreSQL `LIKE` pattern matching: `%` matches any sequence
of characters, `_` matches exactly one character, a backslash escapes the
following pattern character.  The `fuel` argument makes the recursion
structural (hence kernel-computable); every recursive call strictly decreases
`pattern.length + s.length`, so fuel `pattern.length + s.length + 1` always
suffices (`likeMatchF_congr` below shows the result is fuel-independent once
the fuel is large enough). -/
def likeMatchF : Nat → List Char → List Char → Bool
  | 0, _, _ => false
  | _ + 1, [], s => s.isEmpty
  | fuel + 1, p :: ps, s =>
    if p = '%' then
      likeMatchF fuel ps s ||
        (match s with
         | [] => false
         | _ :: t => likeMatchF fuel (p :: ps) t)
    else if p = '_' then
      match s with
      | [] => false
      | _ :: t => likeMatchF fuel ps t
    else if p = '\\' then
      match ps with
      | [] => false
      | q :: ps' =>
        match s with
        | [] => false
        | c :: t => q == c && likeMatchF fuel ps' t
    else
      match s with
      | [] => false
      | c :: t => p == c && likeMatchF fuel ps t

/-- PostgreSQL `LIKE` matching of a pattern against a string. -/
def likeMatch (p s : List Char) : Bool := likeMatchF (p.length + s.length + 1) p s

/-- The pattern the handlers build for a search term: the Python
f-string percent-search-percent. -/
def searchPattern (search : String) : List Char := '%' :: search.toList ++ ['%']

/-- `column ILIKE pattern`: case-insensitive `LIKE`. -/
def ilikeCol (text : String) (pat : List Char) : Bool :=
  likeMatch (lowerL pat) (lowerL text.toList)

/-- Literal (wildcard-free) substring occurrence on character lists. -/
def isSub (needle text : List Char) : Bool :=
  text.tails.any (fun t => needle.isPrefixOf t)

/-- Spec-side predicate (for comparison with the implementation): the search
string occurs case-insensitively as a literal substring of the column. -/
def specSubstrCI (needle text : String) : Bool :=
  isSub (lowerL needle.toList) (lowerL text.toList)

/-- A character list is free of `LIKE` metacharacters. -/
def noWild (cs : List Char) : Bool :=
  cs.all (fun c => !(c == '%' || c == '_' || c == '\\'))

/-! ### ORDER BY created_at DESC -/

/-- `ORDER BY key DESC`: sort with the relation "key of the right element is
at most key of the left element". -/
def sortByKeyDesc (key : α → Nat) (l : List α) : List α :=
  List.insertionSort (fun a b => key b ≤ key a) l

/-! ### Data model: the three tables of `create_tables` -/

/-- One row of `contact_us`. -/
structure ContactRow where
  id : Nat
  name : String
  email : String
  message : String
  created_at : Nat
deriving DecidableEq

/-- One row of `financial_requests`. -/
structure FinancialRequestRow where
  id : Nat
  employment_status : String
  employment_type : String
  has_pay_slips : String
  previous_funds_history : String
  service_interest : String
  preferred_language : String
  full_name : String
  phone_number : String
  email_address : String
  created_at : Nat
  updated_at : Nat
deriving DecidableEq

/-- One row of `admin_users`. -/
structure AdminUserRow where
  id : Nat
  username : String
  email : String
  password_hash : String
  full_name : String
  is_active : Bool
  created_at : Nat
  updated_at : Nat
deriving DecidableEq

/-- The `contact_us` table plus its SERIAL id counter. -/
structure ContactsDB where
  rows : List ContactRow
  nextId : Nat
deriving DecidableEq

/-- The `financial_requests` table plus its SERIAL id counter. -/
structure FinsDB where
  rows : List FinancialRequestRow
  nextId : Nat
deriving DecidableEq

/-- The `admin_users` table plus its SERIAL id counter. -/
structure AdminsDB where
  rows : List AdminUserRow
  nextId : Nat
deriving DecidableEq

/-! ### Requests, responses, errors -/

/-- An exception raised by a storage statement (psycopg). -/
inductive StorageExc where
  | uniqueViolation
  | other (msg : String)
deriving DecidableEq

/-- `str(e)` of a storage exception. -/
def excMsg : StorageExc → String
  | .uniqueViolation => "duplicate key value violates unique constraint"
  | .other m => m

/-- `HTTPException(status_code, detail)`. -/
structure ApiError where
  status : Nat
  detail : String
deriving DecidableEq

/-- Outcome of one handler call: the HTTP-visible result. -/
inductive ApiOutcome (α : Type) where
  | ok (val : α)
  | err (e : ApiError)
deriving DecidableEq

/-- Result of running one handler: the response, the database state it leaves
behind, and the number of storage connections it still holds open. -/
structure OpResult (δ : Type) (α : Type) where
  result : ApiOutcome α
  db : δ
  openConns : Nat
deriving DecidableEq

/-- `ContactForm`. -/
structure ContactForm where
  name : String
  email : String
  message : String
deriving DecidableEq

/-- `FinancialRequestForm`. -/
structure FinancialRequestForm where
  employment_status : String
  employment_type : String
  has_pay_slips : String
  previous_funds_history : String
  service_interest : String
  preferred_language : String
  full_name : String
  phone_number : String
  email_address : String
deriving DecidableEq

/-- `AdminUserCreate`. -/
structure AdminUserCreate where
  username : String
  email : String
  password : String
  full_name : String
deriving DecidableEq

/-- The columns an admin-user response carries (`AdminUserResponse`):
note there is no `password_hash` field. -/
structure AdminUserResp where
  id : Nat
  username : String
  email : String
  full_name : String
  is_active : Bool
  created_at : Nat
  updated_at : Nat
deriving DecidableEq

/-- Projection of a stored admin row onto the response columns, as listed in
the `SELECT`/`RETURNING` column lists of the admin handlers. -/
def adminToResp (r : AdminUserRow) : AdminUserResp :=
  { id := r.id, username := r.username, email := r.email, full_name := r.full_name,
    is_active := r.is_active, created_at := r.created_at, updated_at := r.updated_at }

/-- Body of a successful `POST /api/contact`. -/
structure SubmitContactResp where
  success : Bool
  message : String
  id : Nat
  created_at : Nat
deriving DecidableEq

/-- Body of a successful `POST /api/financial-requests`. -/
structure SubmitFinResp where
  success : Bool
  message : String
  id : Nat
  created_at : Nat
  updated_at : Nat
deriving DecidableEq

/-- Body of a successful `GET /api/contacts`. -/
structure ContactsListResp where
  success : Bool
  total : Nat
  contacts : List ContactRow
deriving DecidableEq

/-- Body of a successful `GET /api/financial-requests`. -/
structure FinsListResp where
  success : Bool
  total : Nat
  financial_requests : List FinancialRequestRow
deriving DecidableEq

/-- Body of a successful `GET /api/admin-users`. -/
structure AdminsListResp where
  success : Bool
  total : Nat
  admin_users : List AdminUserResp
deriving DecidableEq

/-- Body of a successful `GET /api/health`. -/
structure HealthResp where
  status : String
  database : String
  message : String
deriving DecidableEq

/-- Body of a successful `GET /api/statistics`. -/
structure StatisticsResp where
  success : Bool
  contact_requests : Nat
  financial_requests : Nat
  service_breakdown : List (String × Nat)
  total_requests : Nat
deriving DecidableEq

/-! ### Validators (the in-handler field checks) -/

/-- `not form.name.strip() or not form.email.strip() or not form.message.strip()`. -/
def contactBlank (f : ContactForm) : Bool :=
  (stripL f.name.toList).isEmpty || (stripL f.email.toList).isEmpty ||
    (stripL f.message.toList).isEmpty

/-- The `required_fields` list of `submit_financial_request`. -/
def finRequired (f : FinancialRequestForm) : List String :=
  [f.employment_status, f.employment_type, f.has_pay_slips, f.previous_funds_history,
   f.service_interest, f.preferred_language, f.full_name, f.phone_number, f.email_address]

/-- `not all(field.strip() for field in required_fields)`. -/
def finBlank (f : FinancialRequestForm) : Bool :=
  !(finRequired f).all (fun s => !(stripL s.toList).isEmpty)

/-- `not all([user.username.strip(), user.email.strip(), user.password.strip(),
user.full_name.strip()])`. -/
def adminBlank (u : AdminUserCreate) : Bool :=
  (stripL u.username.toList).isEmpty || (stripL u.email.toList).isEmpty ||
    (stripL u.password.toList).isEmpty || (stripL u.full_name.toList).isEmpty

/-! ### WHERE-clause predicates (the dynamic filter composition) -/

/-- `name ILIKE p OR email ILIKE p OR message ILIKE p` for `get_contacts`. -/
def contactSearchCond (s : String) (r : ContactRow) : Bool :=
  ilikeCol r.name (searchPattern s) || ilikeCol r.email (searchPattern s) ||
    ilikeCol r.message (searchPattern s)

/-- The WHERE predicate of `get_contacts`: the search condition is attached
only when `search` is truthy (present and non-empty). -/
def contactsWhere : Option String → ContactRow → Bool
  | some s, r => if pyTruthy s then contactSearchCond s r else true
  | none, _ => true

/-- `full_name ILIKE p OR email_address ILIKE p OR phone_number ILIKE p`
for `get_financial_requests`. -/
def finSearchCond (s : String) (r : FinancialRequestRow) : Bool :=
  ilikeCol r.full_name (searchPattern s) || ilikeCol r.email_address (searchPattern s) ||
    ilikeCol r.phone_number (searchPattern s)

/-- The WHERE predicate of `get_financial_requests`: search condition and the
exact `service_interest` condition, each attached only when its parameter is
truthy, joined with AND. -/
def finWhere (search service_type : Option String) (r : FinancialRequestRow) : Bool :=
  (match search with
   | some s => if pyTruthy s then finSearchCond s r else true
   | none => true) &&
  (match service_type with
   | some t => if pyTruthy t then r.service_interest == t else true
   | none => true)

/-- `username ILIKE p OR email ILIKE p OR full_name ILIKE p` for
`get_admin_users`. -/
def adminSearchCond (s : String) (r : AdminUserRow) : Bool :=
  ilikeCol r.username (searchPattern s) || ilikeCol r.email (searchPattern s) ||
    ilikeCol r.full_name (searchPattern s)

/-- The WHERE predicate of `get_admin_users`: `is_active = TRUE` attached when
`active_only` is truthy, the search condition when `search` is truthy,
joined with AND. -/
def adminWhere (active_only : Option Bool) (search : Option String) (r : AdminUserRow) : Bool :=
  (if optBoolTruthy active_only then r.is_active else true) &&
  (match search with
   | some s => if pyTruthy s then adminSearchCond s r else true
   | none => true)

/-- The pre-insert existence check of `create_admin_user`:
`SELECT id FROM admin_users WHERE username = %s OR email = %s` found a row. -/
def dupCheck (db : AdminsDB) (u : AdminUserCreate) : Bool :=
  db.rows.any (fun r => r.username == pyStrip u.username || r.email == pyStrip u.email)

/-! ### Route handlers

Each handler mirrors its Python function statement by statement.  The
`Option StorageExc` arguments stand for exceptions raised by statements run
after `get_db_connection()` succeeded; `openConns` records how many
connections the handler still holds when it returns or raises, tracking
exactly where `main.py` calls `conn.close()` (there is no `finally` block and
no context manager in the source). -/

/-- `GET /api/health`.  `connExc` models `get_db_connection()` itself raising
(no connection held), `stmtExc` the `SELECT 1` raising after the connection
was acquired. -/
def health_check (connExc stmtExc : Option StorageExc) : OpResult Unit HealthResp :=
  match connExc with
  | some e =>
    { result := .err ⟨503, "Database connection failed: " ++ excMsg e⟩,
      db := (), openConns := 0 }
  | none =>
    match stmtExc with
    | some e =>
      { result := .err ⟨503, "Database connection failed: " ++ excMsg e⟩,
        db := (), openConns := 1 }
    | none =>
      let resp : HealthResp :=
        { status := "healthy", database := "connected",
          message := "Server and database are running correctly" }
      { result := .ok resp, db := (), openConns := 0 }

/-- `POST /api/contact`. -/
def submit_contact (form : ContactForm) (db : ContactsDB) (now : Nat)
    (exc : Option StorageExc) : OpResult ContactsDB SubmitContactResp :=
  if contactBlank form then
    { result := .err ⟨400, "All fields are required"⟩, db := db, openConns := 0 }
  else
    match exc with
    | some _ =>
      { result := .err ⟨500, "Error saving your message. Please try again."⟩,
        db := db, openConns := 1 }
    | none =>
      let row : ContactRow :=
        { id := db.nextId, name := pyStrip form.name, email := pyStrip form.email,
          message := pyStrip form.message, created_at := now }
      let resp : SubmitContactResp :=
        { success := true,
          message := "Thank you for your message! We will get back to you soon.",
          id := row.id, created_at := now }
      { result := .ok resp,
        db := { rows := db.rows ++ [row], nextId := db.nextId + 1 }, openConns := 0 }

/-- `GET /api/contacts`. -/
def get_contacts (limit offset : Nat) (search : Option String) (db : ContactsDB)
    (exc : Option StorageExc) : OpResult ContactsDB ContactsListResp :=
  match exc with
  | some _ =>
    { result := .err ⟨500, "Error fetching contacts list"⟩, db := db, openConns := 1 }
  | none =>
    let matching := db.rows.filter (contactsWhere search)
    let page := ((sortByKeyDesc ContactRow.created_at matching).drop offset).take limit
    let resp : ContactsListResp :=
      { success := true, total := matching.length, contacts := page }
    { result := .ok resp, db := db, openConns := 0 }

/-- `POST /api/financial-requests`. -/
def submit_financial_request (form : FinancialRequestForm) (db : FinsDB) (now : Nat)
    (exc : Option StorageExc) : OpResult FinsDB SubmitFinResp :=
  if finBlank form then
    { result := .err ⟨400, "All fields are required"⟩, db := db, openConns := 0 }
  else
    match exc with
    | some _ =>
      { result := .err ⟨500, "Error saving your financial request. Please try again."⟩,
        db := db, openConns := 1 }
    | none =>
      let row : FinancialRequestRow :=
        { id := db.nextId,
          employment_status := pyStrip form.employment_status,
          employment_type := pyStrip form.employment_type,
          has_pay_slips := pyStrip form.has_pay_slips,
          previous_funds_history := pyStrip form.previous_funds_history,
          service_interest := pyStrip form.service_interest,
          preferred_language := pyStrip form.preferred_language,
          full_name := pyStrip form.full_name,
          phone_number := pyStrip form.phone_number,
          email_address := pyStrip form.email_address,
          created_at := now, updated_at := now }
      let resp : SubmitFinResp :=
        { success := true,
          message := "Thank you for your financial request! We will contact you within 4 working hours.",
          id := row.id, created_at := now, updated_at := now }
      { result := .ok resp,
        db := { rows := db.rows ++ [row], nextId := db.nextId + 1 }, openConns := 0 }

/-- `GET /api/financial-requests`. -/
def get_financial_requests (limit offset : Nat) (search service_type : Option String)
    (db : FinsDB) (exc : Option StorageExc) : OpResult FinsDB FinsListResp :=
  match exc with
  | some _ =>
    { result := .err ⟨500, "Error fetching financial requests list"⟩,
      db := db, openConns := 1 }
  | none =>
    let matching := db.rows.filter (finWhere search service_type)
    let page :=
      ((sortByKeyDesc FinancialRequestRow.created_at matching).drop offset).take limit
    let resp : FinsListResp :=
      { success := true, total := matching.length, financial_requests := page }
    { result := .ok resp, db := db, openConns := 0 }

/-- `POST /api/admin-users`.  `selExc` models the existence-check `SELECT`
raising, `insExc` the `INSERT` raising (in particular
`StorageExc.uniqueViolation` when a concurrent create slipped past the
existence check and the UNIQUE constraint rejects the row).  Both are caught
by the handler's `except Exception` and surface as the generic 500; the
duplicate-found `HTTPException` is re-raised by `except HTTPException` with
the connection still open. -/
def create_admin_user (hashFn : String → String) (user : AdminUserCreate)
    (db : AdminsDB) (now : Nat) (selExc insExc : Option StorageExc) :
    OpResult AdminsDB AdminUserResp :=
  if adminBlank user then
    { result := .err ⟨400, "All fields are required"⟩, db := db, openConns := 0 }
  else if user.password.length < 6 then
    { result := .err ⟨400, "Password must be at least 6 characters long"⟩,
      db := db, openConns := 0 }
  else
    match selExc with
    | some _ =>
      { result := .err ⟨500, "Error creating admin user"⟩, db := db, openConns := 1 }
    | none =>
      if dupCheck db user then
        { result := .err ⟨400, "Username or email already exists"⟩,
          db := db, openConns := 1 }
      else
        match insExc with
        | some _ =>
          { result := .err ⟨500, "Error creating admin user"⟩, db := db, openConns := 1 }
        | none =>
          let row : AdminUserRow :=
            { id := db.nextId, username := pyStrip user.username,
              email := pyStrip user.email, password_hash := hashFn user.password,
              full_name := pyStrip user.full_name, is_active := true,
              created_at := now, updated_at := now }
          { result := .ok (adminToResp row),
            db := { rows := db.rows ++ [row], nextId := db.nextId + 1 },
            openConns := 0 }

/-- `GET /api/admin-users`. -/
def get_admin_users (limit offset : Nat) (search : Option String)
    (active_only : Option Bool) (db : AdminsDB) (exc : Option StorageExc) :
    OpResult AdminsDB AdminsListResp :=
  match exc with
  | some _ =>
    { result := .err ⟨500, "Error fetching admin users list"⟩, db := db, openConns := 1 }
  | none =>
    let matching := db.rows.filter (adminWhere active_only search)
    let page := ((sortByKeyDesc AdminUserRow.created_at matching).drop offset).take limit
    let resp : AdminsListResp :=
      { success := true, total := matching.length, admin_users := page.map adminToResp }
    { result := .ok resp, db := db, openConns := 0 }

/-- `GET /api/admin-users/{user_id}`.  The handler closes the connection
before the not-found check, so the 404 path holds no connection. -/
def get_admin_user (user_id : Nat) (db : AdminsDB) (exc : Option StorageExc) :
    OpResult AdminsDB AdminUserResp :=
  match exc with
  | some _ =>
    { result := .err ⟨500, "Error fetching admin user"⟩, db := db, openConns := 1 }
  | none =>
    match db.rows.find? (fun r => r.id == user_id) with
    | none => { result := .err ⟨404, "Admin user not found"⟩, db := db, openConns := 0 }
    | some r => { result := .ok (adminToResp r), db := db, openConns := 0 }

/-- `SELECT service_interest, COUNT(*) FROM financial_requests GROUP BY
service_interest ORDER BY count DESC`: one pair per distinct
`service_interest` with its row count, sorted by count descending (ties in
storage iteration order). -/
def serviceBreakdown (rows : List FinancialRequestRow) : List (String × Nat) :=
  sortByKeyDesc Prod.snd
    (((rows.map (fun r => r.service_interest)).dedup).map
      (fun v => (v, (rows.filter (fun r => r.service_interest == v)).length)))

/-- `GET /api/statistics`. -/
def get_statistics (cdb : ContactsDB) (fdb : FinsDB) (exc : Option StorageExc) :
    OpResult Unit StatisticsResp :=
  match exc with
  | some _ =>
    { result := .err ⟨500, "Error fetching statistics"⟩, db := (), openConns := 1 }
  | none =>
    let resp : StatisticsResp :=
      { success := true,
        contact_requests := cdb.rows.length,
        financial_requests := fdb.rows.length,
        service_breakdown := serviceBreakdown fdb.rows,
        total_requests := cdb.rows.length + fdb.rows.length }
    { result := .ok resp, db := (), openConns := 0 }

/-! ### Lemmas about `likeMatchF` / `likeMatch` -/

/-- The fuel-indexed matcher returns the same answer for any two sufficient
fuels. -/
theorem likeMatchF_congr :
    ∀ (n m : Nat) (p s : List Char), p.length + s.length < n → p.length + s.length < m →
      likeMatchF n p s = likeMatchF m p s := by
  intro n
  induction n using Nat.strong_induction_on with
  | _ n ih =>
    intro m p s hn hm
    cases n with
    | zero => omega
    | succ n' =>
      cases m with
      | zero => omega
      | succ m' =>
        cases p with
        | nil => rfl
        | cons pc pt =>
          simp only [List.length_cons] at hn hm
          simp only [likeMatchF]
          split_ifs with h1 h2 h3
          · have e1 : likeMatchF n' pt s = likeMatchF m' pt s :=
              ih n' (by omega) m' pt s (by omega) (by omega)
            rw [e1]
            congr 1
            cases s with
            | nil => rfl
            | cons c t =>
              simp only [List.length_cons] at hn hm
              show likeMatchF n' (pc :: pt) t = likeMatchF m' (pc :: pt) t
              exact ih n' (by omega) m' (pc :: pt) t
                (by simp only [List.length_cons]; omega)
                (by simp only [List.length_cons]; omega)
          · cases s with
            | nil => rfl
            | cons c t =>
              simp only [List.length_cons] at hn hm
              show likeMatchF n' pt t = likeMatchF m' pt t
              exact ih n' (by omega) m' pt t (by omega) (by omega)
          · cases pt with
            | nil => rfl
            | cons q pt' =>
              cases s with
              | nil => rfl
              | cons c t =>
                simp only [List.length_cons] at hn hm
                show (q == c && likeMatchF n' pt' t) = (q == c && likeMatchF m' pt' t)
                rw [ih n' (by omega) m' pt' t (by omega) (by omega)]
          · cases s with
            | nil => rfl
            | cons c t =>
              simp only [List.length_cons] at hn hm
              show (pc == c && likeMatchF n' pt t) = (pc == c && likeMatchF m' pt t)
              rw [ih n' (by omega) m' pt t (by omega) (by omega)]

/-- Any sufficient fuel computes `likeMatch`. -/
theorem likeMatchF_eq (n : Nat) (p s : List Char) (h : p.length + s.length < n) :
    likeMatchF n p s = likeMatch p s :=
  likeMatchF_congr n (p.length + s.length + 1) p s h (by omega)

/-- Move `likeMatch` to a chosen syntactic-successor fuel, to unfold a step. -/
theorem likeMatch_eqF (p s : List Char) (n : Nat) (h : p.length + s.length < n + 1) :
    likeMatch p s = likeMatchF (n + 1) p s :=
  (likeMatchF_eq (n + 1) p s h).symm

/-- The empty pattern matches exactly the empty string. -/
theorem likeMatch_nil (s : List Char) : likeMatch [] s = s.isEmpty := by
  rw [likeMatch_eqF [] s s.length (by simp)]
  rfl

/-- Unfolding: a leading `%` on the empty string. -/
theorem likeMatch_star_nil (ps : List Char) :
    likeMatch ('%' :: ps) [] = likeMatch ps [] := by
  rw [likeMatch_eqF ('%' :: ps) [] (ps.length + 1) (by simp)]
  show (likeMatchF (ps.length + 1) ps [] || false) = likeMatch ps []
  rw [likeMatchF_eq _ _ _ (by simp), Bool.or_false]

/-- Unfolding: a leading `%` either matches nothing or consumes a character. -/
theorem likeMatch_star_cons (ps : List Char) (c : Char) (t : List Char) :
    likeMatch ('%' :: ps) (c :: t) = (likeMatch ps (c :: t) || likeMatch ('%' :: ps) t) := by
  rw [likeMatch_eqF ('%' :: ps) (c :: t) (ps.length + t.length + 2) (by simp; omega)]
  show (likeMatchF (ps.length + t.length + 2) ps (c :: t) ||
      likeMatchF (ps.length + t.length + 2) ('%' :: ps) t) =
      (likeMatch ps (c :: t) || likeMatch ('%' :: ps) t)
  rw [likeMatchF_eq _ ps (c :: t) (by simp; omega),
    likeMatchF_eq _ ('%' :: ps) t (by simp; omega)]

/-- One-step unfolding of the matcher at an ordinary pattern character, on
the empty string. -/
theorem likeMatchF_chr_nil (n : Nat) (c : Char) (ps : List Char)
    (h1 : c ≠ '%') (h2 : c ≠ '_') (h3 : c ≠ '\\') :
    likeMatchF (n + 1) (c :: ps) [] = false := by
  simp only [likeMatchF, if_neg h1, if_neg h2, if_neg h3]

/-- One-step unfolding of the matcher at an ordinary pattern character, on a
non-empty string. -/
theorem likeMatchF_chr_cons (n : Nat) (c : Char) (ps : List Char) (d : Char) (t : List Char)
    (h1 : c ≠ '%') (h2 : c ≠ '_') (h3 : c ≠ '\\') :
    likeMatchF (n + 1) (c :: ps) (d :: t) = (c == d && likeMatchF n ps t) := by
  simp only [likeMatchF, if_neg h1, if_neg h2, if_neg h3]

/-- Unfolding: an ordinary pattern character never matches the empty string. -/
theorem likeMatch_chr_nil (c : Char) (ps : List Char)
    (h1 : c ≠ '%') (h2 : c ≠ '_') (h3 : c ≠ '\\') :
    likeMatch (c :: ps) [] = false := by
  rw [likeMatch_eqF (c :: ps) [] (ps.length + 1) (by simp),
    likeMatchF_chr_nil _ _ _ h1 h2 h3]

/-- Unfolding: an ordinary pattern character matches itself literally. -/
theorem likeMatch_chr_cons (c : Char) (ps : List Char) (d : Char) (t : List Char)
    (h1 : c ≠ '%') (h2 : c ≠ '_') (h3 : c ≠ '\\') :
    likeMatch (c :: ps) (d :: t) = (c == d && likeMatch ps t) := by
  rw [likeMatch_eqF (c :: ps) (d :: t) (ps.length + t.length + 2) (by simp; omega),
    likeMatchF_chr_cons _ _ _ _ _ h1 h2 h3,
    likeMatchF_eq _ ps t (by omega)]

/-- The pattern consisting of a single `%` matches every string. -/
theorem likeMatch_pct_all (t : List Char) : likeMatch ['%'] t = true := by
  induction t with
  | nil => rw [likeMatch_star_nil, likeMatch_nil]; rfl
  | cons c t ih => rw [likeMatch_star_cons, ih, Bool.or_true]

/-- A leading `%` matches iff the rest of the pattern matches some tail. -/
theorem likeMatch_star_any (ps s : List Char) :
    likeMatch ('%' :: ps) s = s.tails.any (likeMatch ps) := by
  induction s with
  | nil => simp [likeMatch_star_nil]
  | cons c t ih => simp [likeMatch_star_cons, ih]

/-- A wildcard-free pattern followed by `%` matches exactly the strings it is
a literal prefix of. -/
theorem likeMatch_plain (needle : List Char) (h : noWild needle = true) :
    ∀ t, likeMatch (needle ++ ['%']) t = needle.isPrefixOf t := by
  induction needle with
  | nil => intro t; simp [likeMatch_pct_all, List.isPrefixOf]
  | cons c ns ih =>
    have h' := h
    simp only [noWild, List.all_cons, Bool.and_eq_true, Bool.not_eq_true',
      Bool.or_eq_false_iff, beq_eq_false_iff_ne] at h'
    obtain ⟨⟨⟨hc1, hc2⟩, hc3⟩, hall⟩ := h'
    intro t
    cases t with
    | nil =>
      rw [List.cons_append, likeMatch_chr_nil c (ns ++ ['%']) hc1 hc2 hc3]
      rfl
    | cons d t' =>
      rw [List.cons_append, likeMatch_chr_cons c (ns ++ ['%']) d t' hc1 hc2 hc3,
        ih hall t']
      rfl

/-- The empty needle occurs in every string. -/
theorem isSub_nil (text : List Char) : isSub [] text = true := by
  cases text <;> simp [isSub, List.isPrefixOf]

/-- The implementation's `column ILIKE percent-search-percent` coincides, for
search strings free of `LIKE` metacharacters, with case-insensitive literal
substring occurrence. -/
theorem ilikeCol_eq_specSubstr (s text : String) (h : noWild (lowerL s.toList) = true) :
    ilikeCol text (searchPattern s) = specSubstrCI s text := by
  have hlow : Char.toLower '%' = '%' := by decide
  have hpat : lowerL (searchPattern s) = '%' :: (lowerL s.toList ++ ['%']) := by
    simp [lowerL, searchPattern, hlow]
  unfold ilikeCol specSubstrCI isSub
  rw [hpat, likeMatch_star_any]
  congr 1
  funext t
  exact likeMatch_plain _ h t

/-! ### Lemmas about sorting and misc helpers -/

/-- The `ORDER BY` result is a permutation of its input. -/
theorem sortByKeyDesc_perm (key : α → Nat) (l : List α) :
    (sortByKeyDesc key l).Perm l :=
  List.perm_insertionSort _ l

/-- The `ORDER BY key DESC` result is sorted descending on the key. -/
theorem sortByKeyDesc_sorted (key : α → Nat) (l : List α) :
    List.Sorted (fun a b => key b ≤ key a) (sortByKeyDesc key l) := by
  letI : IsTotal α (fun a b => key b ≤ key a) := ⟨fun a b => Nat.le_total (key b) (key a)⟩
  letI : IsTrans α (fun a b => key b ≤ key a) := ⟨fun _ _ _ h1 h2 => Nat.le_trans h2 h1⟩
  exact List.sorted_insertionSort _ l

/-- A falsy search string is the empty string. -/
theorem pyTruthy_false {s : String} (h : pyTruthy s = false) : s.toList = [] := by
  simpa [pyTruthy] using h

/-! ### Claim C5 -/

/-- Claim C5: a contact or financial-request submission with any required
field empty or whitespace-only after trimming fails with the 400 error
"All fields are required", leaves the table unchanged and touches no storage
connection; a submission whose fields are all non-blank persists the trimmed
values, not the raw inputs. -/
theorem c5_validation_and_trimming :
    (∀ (f : ContactForm) (db : ContactsDB) (now : Nat) (exc : Option StorageExc),
      contactBlank f = true →
        submit_contact f db now exc = ⟨.err ⟨400, "All fields are required"⟩, db, 0⟩) ∧
    (∀ (f : ContactForm) (db : ContactsDB) (now : Nat),
      contactBlank f = false →
        (submit_contact f db now none).db.rows =
          db.rows ++
            [⟨db.nextId, pyStrip f.name, pyStrip f.email, pyStrip f.message, now⟩]) ∧
    (∀ (f : FinancialRequestForm) (db : FinsDB) (now : Nat) (exc : Option StorageExc),
      finBlank f = true →
        submit_financial_request f db now exc =
          ⟨.err ⟨400, "All fields are required"⟩, db, 0⟩) ∧
    (∀ (f : FinancialRequestForm) (db : FinsDB) (now : Nat),
      finBlank f = false →
        (submit_financial_request f db now none).db.rows =
          db.rows ++
            [⟨db.nextId, pyStrip f.employment_status, pyStrip f.employment_type,
              pyStrip f.has_pay_slips, pyStrip f.previous_funds_history,
              pyStrip f.service_interest, pyStrip f.preferred_language,
              pyStrip f.full_name, pyStrip f.phone_number, pyStrip f.email_address,
              now, now⟩]) := by
  refine ⟨?_, ?_, ?_, ?_⟩
  · intro f db now exc h
    simp [submit_contact, h]
  · intro f db now h
    simp [submit_contact, h]
  · intro f db now exc h
    simp [submit_financial_request, h]
  · intro f db now h
    simp [submit_financial_request, h]

/-- Witness for C5 at concrete forms: a whitespace-only name (resp. blank
employment type) is rejected without touching the table, and a padded name
is persisted trimmed. -/
theorem c5_validation_and_trimming_witness :
    (contactBlank ⟨" ", "a@x.com", "hello"⟩ = true ∧
      submit_contact ⟨" ", "a@x.com", "hello"⟩ ⟨[], 1⟩ 3 none =
        ⟨.err ⟨400, "All fields are required"⟩, ⟨[], 1⟩, 0⟩) ∧
    (contactBlank ⟨" Ann ", "a@x.com", "hello"⟩ = false ∧
      (submit_contact ⟨" Ann ", "a@x.com", "hello"⟩ ⟨[], 1⟩ 3 none).db.rows =
        [] ++ [⟨1, pyStrip " Ann ", pyStrip "a@x.com", pyStrip "hello", 3⟩]) ∧
    (finBlank ⟨"e", " ", "y", "n", "loans", "en", "F", "p", "m"⟩ = true ∧
      submit_financial_request ⟨"e", " ", "y", "n", "loans", "en", "F", "p", "m"⟩
          ⟨[], 1⟩ 4 none =
        ⟨.err ⟨400, "All fields are required"⟩, ⟨[], 1⟩, 0⟩) ∧
    (finBlank ⟨"e ", "t", "y", "n", "loans", "en", "F", "p", "m"⟩ = false ∧
      (submit_financial_request ⟨"e ", "t", "y", "n", "loans", "en", "F", "p", "m"⟩
          ⟨[], 1⟩ 4 none).db.rows =
        [] ++ [⟨1, pyStrip "e ", pyStrip "t", pyStrip "y", pyStrip "n", pyStrip "loans",
          pyStrip "en", pyStrip "F", pyStrip "p", pyStrip "m", 4, 4⟩]) :=
  ⟨⟨by decide, c5_validation_and_trimming.1 _ _ _ _ (by decide)⟩,
   ⟨by decide, c5_validation_and_trimming.2.1 _ _ _ (by decide)⟩,
   ⟨by decide, c5_validation_and_trimming.2.2.1 _ _ _ _ (by decide)⟩,
   ⟨by decide, c5_validation_and_trimming.2.2.2 _ _ _ (by decide)⟩⟩

/-! ### Claim C7 -/

/-- Claim C7 counterexample: a creation request whose password is a single
space (length 1 < 6, all other fields valid) fails with the generic
"All fields are required" error, not with the distinct weak-credential
error, so the claim as stated (every password shorter than 6 characters
yields the weak-credential error) is false. -/
theorem c7_short_blank_password_counterexample :
    (create_admin_user (fun p => p) ⟨"alice", "alice@x.com", " ", "Alice A"⟩
        ⟨[], 1⟩ 0 none none).result = .err ⟨400, "All fields are required"⟩ ∧
    (create_admin_user (fun p => p) ⟨"alice", "alice@x.com", " ", "Alice A"⟩
        ⟨[], 1⟩ 0 none none).result ≠
      .err ⟨400, "Password must be at least 6 characters long"⟩ ∧
    (" " : String).length < 6 ∧
    (create_admin_user (fun p => p) ⟨"alice", "alice@x.com", " ", "Alice A"⟩
        ⟨[], 1⟩ 0 none none).db = ⟨[], 1⟩ := by
  refine ⟨by decide, by decide, by decide, by decide⟩

/-- Claim C7 (amended): a creation request that passes the
all-fields-non-blank check and whose password is shorter than 6 characters
fails with the distinct 400 error "Password must be at least 6 characters
long", persists no row and touches no connection; a request with a blank
field (including a whitespace-only password) instead fails with the generic
"All fields are required" error, likewise without persisting anything. -/
theorem c7_weak_password_amended :
    (∀ (hashFn : String → String) (u : AdminUserCreate) (db : AdminsDB) (now : Nat)
        (selExc insExc : Option StorageExc),
      adminBlank u = false → u.password.length < 6 →
        create_admin_user hashFn u db now selExc insExc =
          ⟨.err ⟨400, "Password must be at least 6 characters long"⟩, db, 0⟩) ∧
    (∀ (hashFn : String → String) (u : AdminUserCreate) (db : AdminsDB) (now : Nat)
        (selExc insExc : Option StorageExc),
      adminBlank u = true →
        create_admin_user hashFn u db now selExc insExc =
          ⟨.err ⟨400, "All fields are required"⟩, db, 0⟩) := by
  constructor
  · intro hashFn u db now selExc insExc h1 h2
    simp [create_admin_user, h1, h2]
  · intro hashFn u db now selExc insExc h1
    simp [create_admin_user, h1]

/-- Witness for C7 at the spec's own scenario: password "abc" (3 characters,
non-blank) yields the weak-credential error and no row. -/
theorem c7_weak_password_witness :
    (adminBlank ⟨"alice", "alice@x.com", "abc", "Alice A"⟩ = false ∧
      "abc".length < 6 ∧
      create_admin_user (fun p => p) ⟨"alice", "alice@x.com", "abc", "Alice A"⟩
          ⟨[], 1⟩ 0 none none =
        ⟨.err ⟨400, "Password must be at least 6 characters long"⟩, ⟨[], 1⟩, 0⟩) ∧
    (adminBlank ⟨"", "alice@x.com", "secret1", "Alice A"⟩ = true ∧
      create_admin_user (fun p => p) ⟨"", "alice@x.com", "secret1", "Alice A"⟩
          ⟨[], 1⟩ 0 none none =
        ⟨.err ⟨400, "All fields are required"⟩, ⟨[], 1⟩, 0⟩) :=
  ⟨⟨by decide, by decide,
    c7_weak_password_amended.1 _ _ _ _ _ _ (by decide) (by decide)⟩,
   ⟨by decide, c7_weak_password_amended.2 _ _ _ _ _ _ (by decide)⟩⟩

/-! ### Claim C1 -/

/-- Claim C1 counterexample: with an empty table (so the pre-insert existence
check passes) and the storage layer raising a uniqueness violation at the
`INSERT` (the concurrent-duplicate situation), `create_admin_user` responds
with the generic 500 "Error creating admin user" — not with the 400-class
duplicate error the claim requires — because the handler's blanket
`except Exception` catches the violation.  (No second row is persisted.) -/
theorem c1_insert_conflict_counterexample :
    (create_admin_user (fun p => p) ⟨"alice", "alice@x.com", "secret1", "Alice A"⟩
        ⟨[], 1⟩ 0 none (some .uniqueViolation)).result =
      .err ⟨500, "Error creating admin user"⟩ ∧
    (create_admin_user (fun p => p) ⟨"alice", "alice@x.com", "secret1", "Alice A"⟩
        ⟨[], 1⟩ 0 none (some .uniqueViolation)).result ≠
      .err ⟨400, "Username or email already exists"⟩ ∧
    (create_admin_user (fun p => p) ⟨"alice", "alice@x.com", "secret1", "Alice A"⟩
        ⟨[], 1⟩ 0 none (some .uniqueViolation)).db = ⟨[], 1⟩ := by
  refine ⟨by decide, by decide, by decide⟩

/-- Claim C1 (amended): when an already-persisted admin row matches the new
username or email, creation fails with the 400 "Username or email already
exists" before any insert and the table is unchanged; but when the existence
check passes and the insert itself raises a storage uniqueness violation,
the violation is surfaced as the generic 500 "Error creating admin user"
(the blanket exception handler), not as a 400-class duplicate error; in
both cases no row is persisted. -/
theorem c1_duplicate_handling_amended :
    (∀ (hashFn : String → String) (u : AdminUserCreate) (db : AdminsDB) (now : Nat)
        (insExc : Option StorageExc),
      adminBlank u = false → ¬u.password.length < 6 → dupCheck db u = true →
        create_admin_user hashFn u db now none insExc =
          ⟨.err ⟨400, "Username or email already exists"⟩, db, 1⟩) ∧
    (∀ (hashFn : String → String) (u : AdminUserCreate) (db : AdminsDB) (now : Nat),
      adminBlank u = false → ¬u.password.length < 6 → dupCheck db u = false →
        create_admin_user hashFn u db now none (some .uniqueViolation) =
          ⟨.err ⟨500, "Error creating admin user"⟩, db, 1⟩) := by
  constructor
  · intro hashFn u db now insExc h1 h2 h3
    simp [create_admin_user, h1, h2, h3]
  · intro hashFn u db now h1 h2 h3
    simp [create_admin_user, h1, h2, h3]

/-- Witness for C1: a second creation with the username of a stored row
fails with the 400 duplicate error and leaves one row; with an empty table
and an insert-time uniqueness violation the handler returns the generic
500. -/
theorem c1_duplicate_handling_witness :
    (adminBlank ⟨"alice", "b@x.com", "secret1", "Alice B"⟩ = false ∧
      ¬("secret1" : String).length < 6 ∧
      dupCheck ⟨[⟨1, "alice", "a@x.com", "H", "Alice A", true, 0, 0⟩], 2⟩
        ⟨"alice", "b@x.com", "secret1", "Alice B"⟩ = true ∧
      create_admin_user (fun p => p) ⟨"alice", "b@x.com", "secret1", "Alice B"⟩
          ⟨[⟨1, "alice", "a@x.com", "H", "Alice A", true, 0, 0⟩], 2⟩ 5 none none =
        ⟨.err ⟨400, "Username or email already exists"⟩,
         ⟨[⟨1, "alice", "a@x.com", "H", "Alice A", true, 0, 0⟩], 2⟩, 1⟩) ∧
    (dupCheck ⟨[], 1⟩ ⟨"alice", "alice@x.com", "secret1", "Alice A"⟩ = false ∧
      create_admin_user (fun p => p) ⟨"alice", "alice@x.com", "secret1", "Alice A"⟩
          ⟨[], 1⟩ 0 none (some .uniqueViolation) =
        ⟨.err ⟨500, "Error creating admin user"⟩, ⟨[], 1⟩, 1⟩) :=
  ⟨⟨by decide, by decide, by decide,
    c1_duplicate_handling_amended.1 _ _ _ _ _ (by decide) (by decide) (by decide)⟩,
   ⟨by decide,
    c1_duplicate_handling_amended.2 _ _ _ _ (by decide) (by decide) (by decide)⟩⟩

/-! ### Claim C3 -/

/-- Claim C3 evaluated at the failing inputs: on a storage error raised
after the connection was acquired — and likewise on the admin
duplicate-conflict path — the handler terminates still holding one open
connection (there is no `finally` and the `except` blocks raise without
calling `conn.close()`), while the success path does close it. -/
theorem c3_connection_leak_eval :
    (submit_contact ⟨"Ann", "ann@x.com", "Hi"⟩ ⟨[], 1⟩ 3
        (some (.other "disk full"))).openConns = 1 ∧
    (submit_contact ⟨"Ann", "ann@x.com", "Hi"⟩ ⟨[], 1⟩ 3 none).openConns = 0 ∧
    (get_admin_users 100 0 none (some true) ⟨[], 1⟩
        (some (.other "connection reset"))).openConns = 1 ∧
    (get_admin_users 100 0 none (some true) ⟨[], 1⟩ none).openConns = 0 ∧
    (create_admin_user (fun p => p) ⟨"alice", "b@x.com", "secret1", "Alice B"⟩
        ⟨[⟨1, "alice", "a@x.com", "H", "Alice A", true, 0, 0⟩], 2⟩ 5 none
        none).openConns = 1 := by
  refine ⟨by decide, by decide, by decide, by decide, by decide⟩

/-! ### Claim C2 -/

/-- Claim C2 counterexample: the health-check endpoint interpolates `str(e)`
of the underlying storage exception into the client-visible 503 detail, so
two runs failing with different internal storage errors produce different
client-visible error bodies. -/
theorem c2_health_detail_counterexample :
    (health_check none (some (.other "password authentication failed for user"))).result ≠
      (health_check none (some (.other "could not connect to server"))).result ∧
    (health_check none (some (.other "password authentication failed for user"))).result =
      .err ⟨503, "Database connection failed: password authentication failed for user"⟩ := by
  refine ⟨by decide, by decide⟩

/-- Claim C2 (amended): for every operation other than the health check, the
error body sent on a storage-layer failure is a fixed generic message,
independent of the underlying exception; the health check alone embeds the
exception text in its 503 detail. -/
theorem c2_generic_errors_amended :
    (∀ (f : ContactForm) (db : ContactsDB) (now : Nat) (e1 e2 : StorageExc),
      (submit_contact f db now (some e1)).result =
        (submit_contact f db now (some e2)).result) ∧
    (∀ (limit offset : Nat) (search : Option String) (db : ContactsDB) (e1 e2 : StorageExc),
      (get_contacts limit offset search db (some e1)).result =
        (get_contacts limit offset search db (some e2)).result) ∧
    (∀ (f : FinancialRequestForm) (db : FinsDB) (now : Nat) (e1 e2 : StorageExc),
      (submit_financial_request f db now (some e1)).result =
        (submit_financial_request f db now (some e2)).result) ∧
    (∀ (limit offset : Nat) (search service_type : Option String) (db : FinsDB)
        (e1 e2 : StorageExc),
      (get_financial_requests limit offset search service_type db (some e1)).result =
        (get_financial_requests limit offset search service_type db (some e2)).result) ∧
    (∀ (hashFn : String → String) (u : AdminUserCreate) (db : AdminsDB) (now : Nat)
        (e1 e2 : StorageExc) (i1 i2 : Option StorageExc),
      (create_admin_user hashFn u db now (some e1) i1).result =
        (create_admin_user hashFn u db now (some e2) i2).result) ∧
    (∀ (hashFn : String → String) (u : AdminUserCreate) (db : AdminsDB) (now : Nat)
        (e1 e2 : StorageExc),
      (create_admin_user hashFn u db now none (some e1)).result =
        (create_admin_user hashFn u db now none (some e2)).result) ∧
    (∀ (limit offset : Nat) (search : Option String) (ao : Option Bool) (db : AdminsDB)
        (e1 e2 : StorageExc),
      (get_admin_users limit offset search ao db (some e1)).result =
        (get_admin_users limit offset search ao db (some e2)).result) ∧
    (∀ (uid : Nat) (db : AdminsDB) (e1 e2 : StorageExc),
      (get_admin_user uid db (some e1)).result = (get_admin_user uid db (some e2)).result) ∧
    (∀ (cdb : ContactsDB) (fdb : FinsDB) (e1 e2 : StorageExc),
      (get_statistics cdb fdb (some e1)).result = (get_statistics cdb fdb (some e2)).result) ∧
    (∀ e : StorageExc,
      (health_check none (some e)).result =
        .err ⟨503, "Database connection failed: " ++ excMsg e⟩) ∧
    (∀ e : StorageExc,
      (health_check (some e) none).result =
        .err ⟨503, "Database connection failed: " ++ excMsg e⟩) := by
  refine ⟨?_, ?_, ?_, ?_, ?_, ?_, ?_, ?_, ?_, ?_, ?_⟩
  · intro f db now e1 e2
    by_cases h : contactBlank f = true <;> simp [submit_contact, h]
  · intro limit offset search db e1 e2
    rfl
  · intro f db now e1 e2
    by_cases h : finBlank f = true <;> simp [submit_financial_request, h]
  · intro limit offset search service_type db e1 e2
    rfl
  · intro hashFn u db now e1 e2 i1 i2
    by_cases h1 : adminBlank u = true <;> by_cases h2 : u.password.length < 6 <;>
      simp [create_admin_user, h1, h2]
  · intro hashFn u db now e1 e2
    by_cases h1 : adminBlank u = true <;> by_cases h2 : u.password.length < 6 <;>
      by_cases h3 : dupCheck db u = true <;> simp [create_admin_user, h1, h2, h3]
  · intro limit offset search ao db e1 e2
    rfl
  · intro uid db e1 e2
    rfl
  · intro cdb fdb e1 e2
    rfl
  · intro e
    rfl
  · intro e
    rfl

/-! ### Claim C4 -/

/-- A falsy (empty) search string occurs in every column. -/
theorem specSubstrCI_empty (s text : String) (h : pyTruthy s = false) :
    specSubstrCI s text = true := by
  unfold specSubstrCI
  rw [pyTruthy_false h]
  exact isSub_nil _

/-- Claim C4 counterexample: searching contacts for the string
percent-a-percent-b ("a%b") returns the stored row whose name is "axb", even
though "a%b" does not occur literally in any of its columns — the search
string's own `%` acts as a `LIKE` wildcard, so inclusion is not literal
substring matching for every search string. -/
theorem c4_wildcard_counterexample :
    (get_contacts 100 0 (some "a%b") ⟨[⟨1, "axb", "e@x", "m", 0⟩], 2⟩ none).result =
      .ok ⟨true, 1, [⟨1, "axb", "e@x", "m", 0⟩]⟩ ∧
    specSubstrCI "a%b" "axb" = false ∧
    specSubstrCI "a%b" "e@x" = false ∧
    specSubstrCI "a%b" "m" = false := by
  refine ⟨by decide, by decide, by decide, by decide⟩

/-- Claim C4 (amended): for every search string free of the `LIKE`
metacharacters `%`, `_` and backslash, a stored row satisfies the listing's
WHERE predicate iff the search string occurs case-insensitively as a literal
substring of at least one of the entity's fixed text columns (Contact:
name/email/message; FinancialRequest: full_name/email_address/phone_number;
AdminUser: username/email/full_name), the per-column conditions being
OR-combined; the extra filters (exact `service_interest` match, is_active
for `active_only`) are AND-combined with the search condition.  (For search
strings containing `%`, `_` or backslash, the characters act as `LIKE`
wildcards/escapes instead.) -/
theorem c4_search_filters_amended :
    ∀ s : String, noWild (lowerL s.toList) = true →
      (∀ r : ContactRow, contactsWhere (some s) r =
        (specSubstrCI s r.name || specSubstrCI s r.email || specSubstrCI s r.message)) ∧
      (∀ (st : Option String) (r : FinancialRequestRow), finWhere (some s) st r =
        ((specSubstrCI s r.full_name || specSubstrCI s r.email_address ||
          specSubstrCI s r.phone_number) && finWhere none st r)) ∧
      (∀ (t : String) (r : FinancialRequestRow), pyTruthy t = true →
        finWhere none (some t) r = (r.service_interest == t)) ∧
      (∀ (ao : Option Bool) (r : AdminUserRow), adminWhere ao (some s) r =
        (adminWhere ao none r &&
          (specSubstrCI s r.username || specSubstrCI s r.email ||
            specSubstrCI s r.full_name))) ∧
      (∀ r : AdminUserRow, adminWhere (some true) none r = r.is_active) := by
  intro s h
  refine ⟨?_, ?_, ?_, ?_, ?_⟩
  · intro r
    by_cases hT : pyTruthy s = true
    · simp only [contactsWhere, hT, if_true, contactSearchCond,
        ilikeCol_eq_specSubstr _ _ h]
    · rw [Bool.not_eq_true] at hT
      simp [contactsWhere, hT, specSubstrCI_empty _ _ hT]
  · intro st r
    by_cases hT : pyTruthy s = true
    · simp only [finWhere, finSearchCond, hT, if_true,
        ilikeCol_eq_specSubstr _ _ h, Bool.true_and]
    · rw [Bool.not_eq_true] at hT
      simp [finWhere, hT, specSubstrCI_empty _ _ hT]
  · intro t r hT
    simp [finWhere, hT]
  · intro ao r
    by_cases hT : pyTruthy s = true
    · simp only [adminWhere, adminSearchCond, hT, if_true,
        ilikeCol_eq_specSubstr _ _ h, Bool.and_true]
    · rw [Bool.not_eq_true] at hT
      simp [adminWhere, hT, specSubstrCI_empty _ _ hT]
  · intro r
    simp [adminWhere, optBoolTruthy]

/-- Witness for C4 at the wildcard-free search string "ann": the filter of
each listing agrees with OR-combined literal substring matching, and the
extra filters compose with AND. -/
theorem c4_search_filters_witness :
    noWild (lowerL ("ann" : String).toList) = true ∧
    contactsWhere (some "ann") ⟨1, "Anna", "a@x.com", "hello", 0⟩ =
      (specSubstrCI "ann" "Anna" || specSubstrCI "ann" "a@x.com" ||
        specSubstrCI "ann" "hello") ∧
    finWhere (some "ann") (some "loans") ⟨1, "e", "t", "y", "n", "loans", "en",
        "Ann B", "p", "m", 0, 0⟩ =
      ((specSubstrCI "ann" "Ann B" || specSubstrCI "ann" "m" ||
        specSubstrCI "ann" "p") &&
       finWhere none (some "loans") ⟨1, "e", "t", "y", "n", "loans", "en",
        "Ann B", "p", "m", 0, 0⟩) ∧
    pyTruthy "loans" = true ∧
    finWhere none (some "loans") ⟨1, "e", "t", "y", "n", "gold", "en",
        "Ann B", "p", "m", 0, 0⟩ = ("gold" == "loans") ∧
    adminWhere (some true) (some "ann") ⟨1, "anna", "a@x.com", "H", "Anna A",
        false, 0, 0⟩ =
      (adminWhere (some true) none ⟨1, "anna", "a@x.com", "H", "Anna A", false, 0, 0⟩ &&
       (specSubstrCI "ann" "anna" || specSubstrCI "ann" "a@x.com" ||
        specSubstrCI "ann" "Anna A")) ∧
    adminWhere (some true) none ⟨1, "anna", "a@x.com", "H", "Anna A", false, 0, 0⟩ = false :=
  ⟨by decide,
   (c4_search_filters_amended "ann" (by decide)).1 _,
   (c4_search_filters_amended "ann" (by decide)).2.1 _ _,
   by decide,
   (c4_search_filters_amended "ann" (by decide)).2.2.1 "loans" _ (by decide),
   (c4_search_filters_amended "ann" (by decide)).2.2.2.1 _ _,
   (c4_search_filters_amended "ann" (by decide)).2.2.2.2 _⟩

/-! ### Claim C6 -/

/-- Claim C6: every listing returns at most `limit` rows, namely the rows
matching its filter predicate ordered by `created_at` descending with the
first `offset` skipped, and a `total` equal to the count of all matching
rows — an expression independent of `limit` and `offset`. -/
theorem c6_pagination :
    (∀ (limit offset : Nat) (search : Option String) (db : ContactsDB),
      1 ≤ limit → limit ≤ 1000 →
        ∃ sorted : List ContactRow,
          sorted.Perm (db.rows.filter (contactsWhere search)) ∧
          List.Sorted (fun a b => b.created_at ≤ a.created_at) sorted ∧
          (get_contacts limit offset search db none).result =
            .ok ⟨true, (db.rows.filter (contactsWhere search)).length,
              (sorted.drop offset).take limit⟩ ∧
          ((sorted.drop offset).take limit).length ≤ limit) ∧
    (∀ (limit offset : Nat) (search service_type : Option String) (db : FinsDB),
      1 ≤ limit → limit ≤ 1000 →
        ∃ sorted : List FinancialRequestRow,
          sorted.Perm (db.rows.filter (finWhere search service_type)) ∧
          List.Sorted (fun a b => b.created_at ≤ a.created_at) sorted ∧
          (get_financial_requests limit offset search service_type db none).result =
            .ok ⟨true, (db.rows.filter (finWhere search service_type)).length,
              (sorted.drop offset).take limit⟩ ∧
          ((sorted.drop offset).take limit).length ≤ limit) ∧
    (∀ (limit offset : Nat) (search : Option String) (ao : Option Bool) (db : AdminsDB),
      1 ≤ limit → limit ≤ 1000 →
        ∃ sorted : List AdminUserRow,
          sorted.Perm (db.rows.filter (adminWhere ao search)) ∧
          List.Sorted (fun a b => b.created_at ≤ a.created_at) sorted ∧
          (get_admin_users limit offset search ao db none).result =
            .ok ⟨true, (db.rows.filter (adminWhere ao search)).length,
              ((sorted.drop offset).take limit).map adminToResp⟩ ∧
          (((sorted.drop offset).take limit).map adminToResp).length ≤ limit) := by
  refine ⟨?_, ?_, ?_⟩
  · intro limit offset search db h1 h2
    refine ⟨sortByKeyDesc ContactRow.created_at (db.rows.filter (contactsWhere search)),
      sortByKeyDesc_perm _ _, sortByKeyDesc_sorted _ _, rfl, ?_⟩
    rw [List.length_take]
    exact Nat.min_le_left _ _
  · intro limit offset search service_type db h1 h2
    refine ⟨sortByKeyDesc FinancialRequestRow.created_at
        (db.rows.filter (finWhere search service_type)),
      sortByKeyDesc_perm _ _, sortByKeyDesc_sorted _ _, rfl, ?_⟩
    rw [List.length_take]
    exact Nat.min_le_left _ _
  · intro limit offset search ao db h1 h2
    refine ⟨sortByKeyDesc AdminUserRow.created_at (db.rows.filter (adminWhere ao search)),
      sortByKeyDesc_perm _ _, sortByKeyDesc_sorted _ _, rfl, ?_⟩
    rw [List.length_map, List.length_take]
    exact Nat.min_le_left _ _

/-- Witness for C6 at a two-row contact table, limit 2 within bounds (and at
empty financial/admin tables). -/
theorem c6_pagination_witness :
    ((1 : Nat) ≤ 2 ∧ (2 : Nat) ≤ 1000) ∧
    (∃ sorted : List ContactRow,
      sorted.Perm (([⟨1, "a", "b", "c", 5⟩, ⟨2, "d", "e", "f", 9⟩] :
        List ContactRow).filter (contactsWhere none)) ∧
      List.Sorted (fun a b => b.created_at ≤ a.created_at) sorted ∧
      (get_contacts 2 0 none ⟨[⟨1, "a", "b", "c", 5⟩, ⟨2, "d", "e", "f", 9⟩], 3⟩
          none).result =
        .ok ⟨true, (([⟨1, "a", "b", "c", 5⟩, ⟨2, "d", "e", "f", 9⟩] :
          List ContactRow).filter (contactsWhere none)).length, (sorted.drop 0).take 2⟩ ∧
      ((sorted.drop 0).take 2).length ≤ 2) ∧
    (∃ sorted : List FinancialRequestRow,
      sorted.Perm (([] : List FinancialRequestRow).filter (finWhere none none)) ∧
      List.Sorted (fun a b => b.created_at ≤ a.created_at) sorted ∧
      (get_financial_requests 2 0 none none ⟨[], 1⟩ none).result =
        .ok ⟨true, (([] : List FinancialRequestRow).filter (finWhere none none)).length,
          (sorted.drop 0).take 2⟩ ∧
      ((sorted.drop 0).take 2).length ≤ 2) ∧
    (∃ sorted : List AdminUserRow,
      sorted.Perm (([] : List AdminUserRow).filter (adminWhere (some true) none)) ∧
      List.Sorted (fun a b => b.created_at ≤ a.created_at) sorted ∧
      (get_admin_users 2 0 none (some true) ⟨[], 1⟩ none).result =
        .ok ⟨true, (([] : List AdminUserRow).filter (adminWhere (some true) none)).length,
          ((sorted.drop 0).take 2).map adminToResp⟩ ∧
      (((sorted.drop 0).take 2).map adminToResp).length ≤ 2) :=
  ⟨⟨by decide, by decide⟩,
   c6_pagination.1 2 0 none ⟨[⟨1, "a", "b", "c", 5⟩, ⟨2, "d", "e", "f", 9⟩], 3⟩
     (by decide) (by decide),
   c6_pagination.2.1 2 0 none none ⟨[], 1⟩ (by decide) (by decide),
   c6_pagination.2.2 2 0 none (some true) ⟨[], 1⟩ (by decide) (by decide)⟩

/-! ### Claim C8 -/

/-- Claim C8: the statistics endpoint reports the number of stored contact
rows, the number of stored financial-request rows, their sum as the total,
and a service breakdown containing exactly one (service_interest, count)
pair for each distinct service value over ALL financial-request rows,
ordered by count descending. -/
theorem c8_statistics :
    ∀ (cdb : ContactsDB) (fdb : FinsDB),
      ∃ breakdown : List (String × Nat),
        (get_statistics cdb fdb none).result =
          .ok ⟨true, cdb.rows.length, fdb.rows.length, breakdown,
            cdb.rows.length + fdb.rows.length⟩ ∧
        (∀ p ∈ breakdown,
          p.1 ∈ fdb.rows.map (fun r => r.service_interest) ∧
          p.2 = (fdb.rows.filter (fun r => r.service_interest == p.1)).length) ∧
        (∀ v ∈ fdb.rows.map (fun r => r.service_interest), ∃ c, (v, c) ∈ breakdown) ∧
        List.Sorted (fun a b => b.2 ≤ a.2) breakdown := by
  intro cdb fdb
  refine ⟨serviceBreakdown fdb.rows, rfl, ?_, ?_, ?_⟩
  · intro p hp
    have hp' := (sortByKeyDesc_perm Prod.snd _).mem_iff.mp hp
    obtain ⟨v, hv, hpv⟩ := List.mem_map.mp hp'
    obtain rfl := hpv.symm
    exact ⟨List.mem_dedup.mp hv, rfl⟩
  · intro v hv
    refine ⟨(fdb.rows.filter (fun r => r.service_interest == v)).length, ?_⟩
    have hmem : (v, (fdb.rows.filter (fun r => r.service_interest == v)).length) ∈
        ((fdb.rows.map (fun r => r.service_interest)).dedup).map
          (fun v => (v, (fdb.rows.filter (fun r => r.service_interest == v)).length)) :=
      List.mem_map_of_mem _ (List.mem_dedup.mpr hv)
    exact (sortByKeyDesc_perm Prod.snd _).mem_iff.mpr hmem
  · exact sortByKeyDesc_sorted Prod.snd _

/-- Witness for C8 on a one-contact, three-financial-request state with two
distinct service values. -/
theorem c8_statistics_witness :
    ∃ breakdown : List (String × Nat),
      (get_statistics ⟨[⟨1, "a", "b", "c", 0⟩], 2⟩
          ⟨[⟨1, "e", "t", "y", "n", "loans", "en", "F", "p", "m", 0, 0⟩,
            ⟨2, "e", "t", "y", "n", "gold", "en", "F", "p", "m", 1, 1⟩,
            ⟨3, "e", "t", "y", "n", "gold", "en", "F", "p", "m", 2, 2⟩], 4⟩ none).result =
        .ok ⟨true, 1, 3, breakdown, 1 + 3⟩ ∧
      (∀ p ∈ breakdown,
        p.1 ∈ (["loans", "gold", "gold"] : List String) ∧
        p.2 = (([⟨1, "e", "t", "y", "n", "loans", "en", "F", "p", "m", 0, 0⟩,
            ⟨2, "e", "t", "y", "n", "gold", "en", "F", "p", "m", 1, 1⟩,
            ⟨3, "e", "t", "y", "n", "gold", "en", "F", "p", "m", 2, 2⟩] :
          List FinancialRequestRow).filter (fun r => r.service_interest == p.1)).length) ∧
      (∀ v ∈ (["loans", "gold", "gold"] : List String), ∃ c, (v, c) ∈ breakdown) ∧
      List.Sorted (fun a b => b.2 ≤ a.2) breakdown :=
  c8_statistics ⟨[⟨1, "a", "b", "c", 0⟩], 2⟩
    ⟨[⟨1, "e", "t", "y", "n", "loans", "en", "F", "p", "m", 0, 0⟩,
      ⟨2, "e", "t", "y", "n", "gold", "en", "F", "p", "m", 1, 1⟩,
      ⟨3, "e", "t", "y", "n", "gold", "en", "F", "p", "m", 2, 2⟩], 4⟩

/-! ### Claim C9 -/

/-- Claim C9: no admin-user operation's response carries the password hash
or the plaintext password.  The response projection carries only the seven
public columns and is invariant under changing the stored hash; a successful
create returns exactly the seven-column record (an expression in which
neither the password nor the hash function occurs); every record returned by
the listing and the get-by-id operation is the projection of a stored row. -/
theorem c9_no_password_hash :
    (∀ (r : AdminUserRow) (h2 : String),
      adminToResp { r with password_hash := h2 } = adminToResp r) ∧
    (∀ (hashFn : String → String) (u : AdminUserCreate) (db : AdminsDB) (now : Nat),
      adminBlank u = false → ¬u.password.length < 6 → dupCheck db u = false →
        (create_admin_user hashFn u db now none none).result =
          .ok ⟨db.nextId, pyStrip u.username, pyStrip u.email, pyStrip u.full_name,
            true, now, now⟩) ∧
    (∀ (limit offset : Nat) (search : Option String) (ao : Option Bool) (db : AdminsDB),
      ∃ (total : Nat) (items : List AdminUserResp),
        (get_admin_users limit offset search ao db none).result = .ok ⟨true, total, items⟩ ∧
        ∀ x ∈ items, ∃ r ∈ db.rows, x = adminToResp r) ∧
    (∀ (uid : Nat) (db : AdminsDB) (x : AdminUserResp),
      (get_admin_user uid db none).result = .ok x → ∃ r ∈ db.rows, x = adminToResp r) := by
  refine ⟨?_, ?_, ?_, ?_⟩
  · intro r h2
    rfl
  · intro hashFn u db now h1 h2 h3
    simp [create_admin_user, h1, h2, h3, adminToResp]
  · intro limit offset search ao db
    refine ⟨(db.rows.filter (adminWhere ao search)).length,
      (((sortByKeyDesc AdminUserRow.created_at
        (db.rows.filter (adminWhere ao search))).drop offset).take limit).map adminToResp,
      rfl, ?_⟩
    intro x hx
    obtain ⟨r, hr, hxr⟩ := List.mem_map.mp hx
    refine ⟨r, ?_, hxr.symm⟩
    have h1 := List.take_subset _ _ hr
    have h2 := List.drop_subset _ _ h1
    have h3 := (sortByKeyDesc_perm AdminUserRow.created_at _).mem_iff.mp h2
    exact List.mem_of_mem_filter h3
  · intro uid db x hx
    rcases hfind : db.rows.find? (fun r => r.id == uid) with _ | r
    · simp [get_admin_user, hfind] at hx
    · simp [get_admin_user, hfind] at hx
      exact ⟨r, List.mem_of_find?_eq_some hfind, hx.symm⟩

/-- Witness for C9: a successful create returns the seven public columns,
and the listing and get-by-id responses at a one-row table are projections
of the stored row. -/
theorem c9_no_password_hash_witness :
    (adminToResp ⟨1, "alice", "a@x.com", "OTHERHASH", "Alice A", true, 0, 0⟩ =
      adminToResp ⟨1, "alice", "a@x.com", "H", "Alice A", true, 0, 0⟩) ∧
    (adminBlank ⟨"alice", "a@x.com", "secret1", "Alice A"⟩ = false ∧
      ¬("secret1" : String).length < 6 ∧
      dupCheck ⟨[], 1⟩ ⟨"alice", "a@x.com", "secret1", "Alice A"⟩ = false ∧
      (create_admin_user (fun p => p ++ "#h") ⟨"alice", "a@x.com", "secret1", "Alice A"⟩
          ⟨[], 1⟩ 9 none none).result =
        .ok ⟨1, pyStrip "alice", pyStrip "a@x.com", pyStrip "Alice A", true, 9, 9⟩) ∧
    (∃ (total : Nat) (items : List AdminUserResp),
      (get_admin_users 100 0 none (some true)
          ⟨[⟨1, "alice", "a@x.com", "H", "Alice A", true, 0, 0⟩], 2⟩ none).result =
        .ok ⟨true, total, items⟩ ∧
      ∀ x ∈ items,
        ∃ r ∈ ([⟨1, "alice", "a@x.com", "H", "Alice A", true, 0, 0⟩] : List AdminUserRow),
          x = adminToResp r) ∧
    ((get_admin_user 1 ⟨[⟨1, "alice", "a@x.com", "H", "Alice A", true, 0, 0⟩], 2⟩
        none).result = .ok (adminToResp ⟨1, "alice", "a@x.com", "H", "Alice A", true, 0, 0⟩) ∧
      ∃ r ∈ ([⟨1, "alice", "a@x.com", "H", "Alice A", true, 0, 0⟩] : List AdminUserRow),
        adminToResp ⟨1, "alice", "a@x.com", "H", "Alice A", true, 0, 0⟩ = adminToResp r) :=
  ⟨c9_no_password_hash.1 ⟨1, "alice", "a@x.com", "H", "Alice A", true, 0, 0⟩ "OTHERHASH",
   ⟨by decide, by decide, by decide,
    c9_no_password_hash.2.1 _ _ _ _ (by decide) (by decide) (by decide)⟩,
   c9_no_password_hash.2.2.1 100 0 none (some true)
     ⟨[⟨1, "alice", "a@x.com", "H", "Alice A", true, 0, 0⟩], 2⟩,
   ⟨by decide,
    c9_no_password_hash.2.2.2 1 ⟨[⟨1, "alice", "a@x.com", "H", "Alice A", true, 0, 0⟩], 2⟩
      (adminToResp ⟨1, "alice", "a@x.com", "H", "Alice A", true, 0, 0⟩) (by decide)⟩⟩

/-! ### Claim C10 -/

/-- Claim C10: supplying the empty string for the search parameter (or for
the `service_type` filter on financial requests) behaves identically to
omitting the parameter: the handlers' results — response, state and
connection count — coincide with the unfiltered listing. -/
theorem c10_empty_string_filters :
    (∀ (limit offset : Nat) (db : ContactsDB) (exc : Option StorageExc),
      get_contacts limit offset (some "") db exc = get_contacts limit offset none db exc) ∧
    (∀ (limit offset : Nat) (st : Option String) (db : FinsDB) (exc : Option StorageExc),
      get_financial_requests limit offset (some "") st db exc =
        get_financial_requests limit offset none st db exc) ∧
    (∀ (limit offset : Nat) (search : Option String) (db : FinsDB) (exc : Option StorageExc),
      get_financial_requests limit offset search (some "") db exc =
        get_financial_requests limit offset search none db exc) ∧
    (∀ (limit offset : Nat) (ao : Option Bool) (db : AdminsDB) (exc : Option StorageExc),
      get_admin_users limit offset (some "") ao db exc =
        get_admin_users limit offset none ao db exc) := by
  have hT : pyTruthy "" = false := by decide
  refine ⟨?_, ?_, ?_, ?_⟩
  · intro limit offset db exc
    have hc : contactsWhere (some "") = contactsWhere none := by
      funext r
      simp [contactsWhere, hT]
    cases exc with
    | some e => rfl
    | none => simp [get_contacts, hc]
  · intro limit offset st db exc
    have hc : finWhere (some "") st = finWhere none st := by
      funext r
      simp [finWhere, hT]
    cases exc with
    | some e => rfl
    | none => simp [get_financial_requests, hc]
  · intro limit offset search db exc
    have hc : finWhere search (some "") = finWhere search none := by
      funext r
      simp [finWhere, hT]
    cases exc with
    | some e => rfl
    | none => simp [get_financial_requests, hc]
  · intro limit offset ao db exc
    have hc : adminWhere ao (some "") = adminWhere ao none := by
      funext r
      simp [adminWhere, hT]
    cases exc with
    | some e => rfl
    | none => simp [get_admin_users, hc]

end MnjMoney
